import Mathlib

/-!
Verification of the webhook authentication and event-dispatch core of the
shove library (Go). The Go source is shallowly embedded: byte strings become
lists of natural numbers below 256, 32-bit words become naturals reduced
modulo 2^32, and Handler.ServeHTTP becomes a pure function from a request
record to the response paired with the list of callback invocations it makes.
-/

set_option maxRecDepth 1000000

namespace Shove

/-- Byte view of an ASCII string (each character is one byte). -/
def strBytes (s : String) : List Nat := s.data.map Char.toNat

/-- Reduction modulo 2^32, the word size of SHA-1 and SHA-256. -/
def w32 (n : Nat) : Nat := n % 4294967296

/-- Rotate a 32-bit word left by k bits. -/
def rotl32 (k x : Nat) : Nat := ((x <<< k) % 4294967296) ||| (x >>> (32 - k))

/-- Rotate a 32-bit word right by k bits. -/
def rotr32 (k x : Nat) : Nat := (x >>> k) ||| ((x <<< (32 - k)) % 4294967296)

/-- Big-endian byte expansion of v to n bytes. -/
def bytesBE : Nat → Nat → List Nat
  | 0, _ => []
  | n + 1, v => bytesBE n (v / 256) ++ [v % 256]

/-- Big-endian 32-bit words from bytes, in groups of four. -/
def bytesToWords : List Nat → List Nat
  | b0 :: b1 :: b2 :: b3 :: rest =>
      (b0 * 16777216 + b1 * 65536 + b2 * 256 + b3) :: bytesToWords rest
  | _ => []

/-- Split a byte string into 64-byte blocks. The fuel argument bounds the
recursion; any fuel of at least the length splits the whole input. -/
def chunks64 : Nat → List Nat → List (List Nat)
  | 0, _ => []
  | _, [] => []
  | fuel + 1, l => l.take 64 :: chunks64 fuel (l.drop 64)

/-- Merkle–Damgård padding shared by SHA-1 and SHA-256: append 0x80, then
zeros up to 56 mod 64, then the bit length as 8 big-endian bytes. -/
def mdPad (msg : List Nat) : List Nat :=
  msg ++ [128] ++ List.replicate ((119 - msg.length % 64) % 64) 0
      ++ bytesBE 8 (8 * msg.length)

/-- SHA-1 message-schedule extension, appending one word per step. -/
def sha1Extend : Nat → List Nat → List Nat
  | 0, w => w
  | n + 1, w =>
      let t := w.getD (w.length - 3) 0 ^^^ w.getD (w.length - 8) 0 ^^^
               w.getD (w.length - 14) 0 ^^^ w.getD (w.length - 16) 0
      sha1Extend n (w ++ [rotl32 1 t])

/-- SHA-1 round function, depending on the round index. -/
def sha1F (i b c d : Nat) : Nat :=
  if i < 20 then (b &&& c) ||| ((4294967295 ^^^ b) &&& d)
  else if i < 40 then b ^^^ c ^^^ d
  else if i < 60 then (b &&& c) ||| (b &&& d) ||| (c &&& d)
  else b ^^^ c ^^^ d

/-- SHA-1 round constants. -/
def sha1K (i : Nat) : Nat :=
  if i < 20 then 1518500249
  else if i < 40 then 1859775393
  else if i < 60 then 2400959708
  else 3395469782

/-- SHA-1 compression rounds over the extended schedule. -/
def sha1Rounds (i : Nat) :
    List Nat → Nat × Nat × Nat × Nat × Nat → Nat × Nat × Nat × Nat × Nat
  | [], st => st
  | wi :: ws, (a, b, c, d, e) =>
      let t := w32 (rotl32 5 a + sha1F i b c d + e + sha1K i + wi)
      sha1Rounds (i + 1) ws (t, a, rotl32 30 b, c, d)

/-- One SHA-1 block: extend the schedule, run 80 rounds, add into the state. -/
def sha1Block (block : List Nat) :
    Nat × Nat × Nat × Nat × Nat → Nat × Nat × Nat × Nat × Nat
  | (h0, h1, h2, h3, h4) =>
      let w := sha1Extend 64 (bytesToWords block)
      match sha1Rounds 0 w (h0, h1, h2, h3, h4) with
      | (a, b, c, d, e) =>
          (w32 (h0 + a), w32 (h1 + b), w32 (h2 + c), w32 (h3 + d), w32 (h4 + e))

/-- Fold SHA-1 block compression over a block list. -/
def sha1Blocks : List (List Nat) → Nat × Nat × Nat × Nat × Nat → Nat × Nat × Nat × Nat × Nat
  | [], st => st
  | blk :: rest, st => sha1Blocks rest (sha1Block blk st)

/-- SHA-1 digest (20 bytes) of a byte string, as in crypto/sha1. -/
def sha1 (msg : List Nat) : List Nat :=
  let padded := mdPad msg
  match sha1Blocks (chunks64 (padded.length + 1) padded)
      (1732584193, 4023233417, 2562383102, 271733878, 3285377520) with
  | (h0, h1, h2, h3, h4) =>
      bytesBE 4 h0 ++ bytesBE 4 h1 ++ bytesBE 4 h2 ++ bytesBE 4 h3 ++ bytesBE 4 h4

/-- SHA-256 round constants (FIPS 180-4, written in decimal). -/
def sha256K : List Nat :=
  [1116352408, 1899447441, 3049323471, 3921009573, 961987163,
   1508970993, 2453635748, 2870763221, 3624381080, 310598401,
   607225278, 1426881987, 1925078388, 2162078206, 2614888103,
   3248222580, 3835390401, 4022224774, 264347078, 604807628,
   770255983, 1249150122, 1555081692, 1996064986, 2554220882,
   2821834349, 2952996808, 3210313671, 3336571891, 3584528711,
   113926993, 338241895, 666307205, 773529912, 1294757372,
   1396182291, 1695183700, 1986661051, 2177026350, 2456956037,
   2730485921, 2820302411, 3259730800, 3345764771, 3516065817,
   3600352804, 4094571909, 275423344, 430227734, 506948616,
   659060556, 883997877, 958139571, 1322822218, 1537002063,
   1747873779, 1955562222, 2024104815, 2227730452, 2361852424,
   2428436474, 2756734187, 3204031479, 3329325298]

/-- SHA-256 message-schedule extension, appending one word per step. -/
def sha256Extend : Nat → List Nat → List Nat
  | 0, w => w
  | n + 1, w =>
      let x15 := w.getD (w.length - 15) 0
      let x2 := w.getD (w.length - 2) 0
      let s0 := rotr32 7 x15 ^^^ rotr32 18 x15 ^^^ (x15 >>> 3)
      let s1 := rotr32 17 x2 ^^^ rotr32 19 x2 ^^^ (x2 >>> 10)
      sha256Extend n
        (w ++ [w32 (w.getD (w.length - 16) 0 + s0 + w.getD (w.length - 7) 0 + s1)])

/-- SHA-256 compression rounds over the extended schedule. -/
def sha256Rounds (i : Nat) :
    List Nat → Nat × Nat × Nat × Nat × Nat × Nat × Nat × Nat →
      Nat × Nat × Nat × Nat × Nat × Nat × Nat × Nat
  | [], st => st
  | wi :: ws, (a, b, c, d, e, f, g, hh) =>
      let bigS1 := rotr32 6 e ^^^ rotr32 11 e ^^^ rotr32 25 e
      let ch := (e &&& f) ^^^ ((4294967295 ^^^ e) &&& g)
      let temp1 := w32 (hh + bigS1 + ch + sha256K.getD i 0 + wi)
      let bigS0 := rotr32 2 a ^^^ rotr32 13 a ^^^ rotr32 22 a
      let maj := (a &&& b) ^^^ (a &&& c) ^^^ (b &&& c)
      let temp2 := w32 (bigS0 + maj)
      sha256Rounds (i + 1) ws
        (w32 (temp1 + temp2), a, b, c, w32 (d + temp1), e, f, g)

/-- One SHA-256 block: extend the schedule, run 64 rounds, add into the state. -/
def sha256Block (block : List Nat) :
    Nat × Nat × Nat × Nat × Nat × Nat × Nat × Nat →
      Nat × Nat × Nat × Nat × Nat × Nat × Nat × Nat
  | (h0, h1, h2, h3, h4, h5, h6, h7) =>
      let w := sha256Extend 48 (bytesToWords block)
      match sha256Rounds 0 w (h0, h1, h2, h3, h4, h5, h6, h7) with
      | (a, b, c, d, e, f, g, hh) =>
          (w32 (h0 + a), w32 (h1 + b), w32 (h2 + c), w32 (h3 + d),
           w32 (h4 + e), w32 (h5 + f), w32 (h6 + g), w32 (h7 + hh))

/-- Fold SHA-256 block compression over a block list. -/
def sha256Blocks :
    List (List Nat) → Nat × Nat × Nat × Nat × Nat × Nat × Nat × Nat →
      Nat × Nat × Nat × Nat × Nat × Nat × Nat × Nat
  | [], st => st
  | blk :: rest, st => sha256Blocks rest (sha256Block blk st)

/-- SHA-256 digest (32 bytes) of a byte string, as in crypto/sha256. -/
def sha256 (msg : List Nat) : List Nat :=
  let padded := mdPad msg
  match sha256Blocks (chunks64 (padded.length + 1) padded)
      (1779033703, 3144134277, 1013904242, 2773480762,
       1359893119, 2600822924, 528734635, 1541459225) with
  | (h0, h1, h2, h3, h4, h5, h6, h7) =>
      bytesBE 4 h0 ++ bytesBE 4 h1 ++ bytesBE 4 h2 ++ bytesBE 4 h3 ++
      bytesBE 4 h4 ++ bytesBE 4 h5 ++ bytesBE 4 h6 ++ bytesBE 4 h7

/-- HMAC with a 64-byte block size, as in crypto/hmac: long keys are hashed,
short keys zero-padded; digest of (ipad-key ++ msg) hashed under opad-key. -/
def hmac (hash : List Nat → List Nat) (key msg : List Nat) : List Nat :=
  let k0 := if 64 < key.length then hash key else key
  let kp := k0 ++ List.replicate (64 - k0.length) 0
  hash ((kp.map fun b => b ^^^ 92) ++ hash ((kp.map fun b => b ^^^ 54) ++ msg))

/-- hmac.New(sha1.New, key) over a message. -/
def hmacSha1 (key msg : List Nat) : List Nat := hmac sha1 key msg

/-- hmac.New(sha256.New, key) over a message. -/
def hmacSha256 (key msg : List Nat) : List Nat := hmac sha256 key msg

/-- ASCII code of the lowercase hex digit of n, for n < 16. -/
def hexDigit (n : Nat) : Nat := if n < 10 then 48 + n else 87 + n

/-- hex.EncodeToString as bytes: two lowercase hex digits per input byte. -/
def hexBytes : List Nat → List Nat
  | [] => []
  | b :: bs => hexDigit (b / 16) :: hexDigit (b % 16) :: hexBytes bs

/-- ASCII whitespace, the byte-level core of strings.TrimSpace. -/
def isSpace (b : Nat) : Bool :=
  b == 9 || b == 10 || b == 11 || b == 12 || b == 13 || b == 32

/-- strings.TrimSpace on ASCII input: drop whitespace from both ends. -/
def trimSpace (l : List Nat) : List Nat :=
  ((l.dropWhile isSpace).reverse.dropWhile isSpace).reverse

/-- The two sentinel errors of the signature checkers. -/
inductive SigError
  | noSignature
  | invalidSignature
deriving DecidableEq

/-- The text of each sentinel error (errNoSignature / errInvalidSignature). -/
def SigError.message : SigError → String
  | .noSignature => "missing signature header (X-Hub-Signature or X-Gitea-Signature)"
  | .invalidSignature => "invalid signature header"

/-- hmac.Equal: a constant-time comparison whose result is byte-sequence
equality (the timing aspect is not observable in a pure embedding). -/
def hmacEqual (a b : List Nat) : Bool := a == b

/-- checkGitHubSignature: X-Hub-Signature must be "sha1=" plus the 40 hex
digits of HMAC-SHA-1 of the body under the secret key. none means success. -/
def checkGitHubSignature (secretKey header body : List Nat) : Option SigError :=
  let signature := trimSpace header
  if signature = [] then some .noSignature
  else if signature.length ≠ 45 then some .invalidSignature
  else
    let expectedSignature := strBytes "sha1=" ++ hexBytes (hmacSha1 secretKey body)
    if hmacEqual signature expectedSignature then none else some .invalidSignature

/-- checkGiteaSignature: X-Gitea-Signature must be the 64 bare hex digits of
HMAC-SHA-256 of the body under the secret key. none means success. -/
def checkGiteaSignature (secretKey header body : List Nat) : Option SigError :=
  let signature := trimSpace header
  if signature = [] then some .noSignature
  else if signature.length ≠ 64 then some .invalidSignature
  else
    let expectedSignature := hexBytes (hmacSha256 secretKey body)
    if hmacEqual signature expectedSignature then none else some .invalidSignature

/-- Events are opaque values carrying a type tag. minimalPing is the library's
MinimalPingEvent; custom stands for any embedder-defined event value. -/
inductive Event
  | minimalPing
  | custom (tag : String) (data : List Nat)
deriving DecidableEq

/-- Event.EventType. -/
def Event.eventType : Event → String
  | .minimalPing => "ping"
  | .custom tag _ => tag

/-- An EventDecoder returns (event or nil, error or nil), modelled as a pair
of options. -/
abbrev EventDecoder := String → List Nat → Option Event × Option String

/-- MinimalEventDecoder recognizes only the "ping" event type. -/
def MinimalEventDecoder : EventDecoder := fun eventType _ =>
  if eventType = "ping" then (some .minimalPing, none) else (none, none)

/-- The Handler configuration. The Callback field of the Go struct is modelled
by serveHTTP returning the list of invocations it would make. -/
structure Handler where
  secretKey : List Nat
  eventDecoder : Option EventDecoder

/-- One inbound HTTP request, with the header fields the handler consumes.
readError models a body stream that fails mid-read with that error text;
body is the full stream content when the stream reads cleanly. -/
structure Request where
  method : String
  xHubSignature : List Nat
  xGiteaSignature : List Nat
  xGitHubEvent : String
  xGitHubDelivery : String
  body : List Nat
  readError : Option String

/-- The HTTP response: status code and plain-text body (http.Error text
without its trailing newline; empty on 204). -/
structure Response where
  status : Nat
  body : String
deriving DecidableEq

/-- io.LimitReader(r.Body, 25<<20): at most 25 MiB are ever read. -/
def maxBodySize : Nat := 25 * 1048576

/-- Body bytes processed after the capped read (the first 25 MiB). -/
def bodyBytes (r : Request) : List Nat := r.body.take maxBodySize

/-- The signature stage of ServeHTTP: GitHub-style first; the Gitea-style
check runs only when the first fails with errNoSignature. -/
def signatureCheck (h : Handler) (r : Request) (body : List Nat) : Option SigError :=
  match checkGitHubSignature h.secretKey r.xHubSignature body with
  | some .noSignature => checkGiteaSignature h.secretKey r.xGiteaSignature body
  | res => res

/-- The decoder in effect: the configured one, else MinimalEventDecoder. -/
def effectiveDecoder (h : Handler) : EventDecoder :=
  match h.eventDecoder with
  | some d => d
  | none => MinimalEventDecoder

/-- Handler.ServeHTTP: the response together with the list of callback
invocations (delivery guid, decoded event) made, in order. -/
def serveHTTP (h : Handler) (r : Request) : Response × List (String × Event) :=
  if r.method ≠ "POST" then (⟨405, "method not allowed"⟩, [])
  else
    match r.readError with
    | some msg => (⟨500, msg⟩, [])
    | none =>
      let body := bodyBytes r
      match signatureCheck h r body with
      | some e => (⟨401, e.message⟩, [])
      | none =>
        match effectiveDecoder h r.xGitHubEvent body with
        | (_, some msg) => (⟨400, msg⟩, [])
        | (none, none) => (⟨501, "event type not supported"⟩, [])
        | (some event, none) => (⟨204, ""⟩, [(r.xGitHubDelivery, event)])

/-- Flip bit k of the i-th byte of a byte string. -/
def bitflip (l : List Nat) (i k : Nat) : List Nat := l.set i (l.getD i 0 ^^^ (1 <<< k))

/-- The header value that the GitHub-style checker accepts:
"sha1=" ++ hex(HMAC-SHA1(key, body)). -/
def githubExpected (secretKey body : List Nat) : List Nat :=
  strBytes "sha1=" ++ hexBytes (hmacSha1 secretKey body)

/-- The header value that the Gitea-style checker accepts:
hex(HMAC-SHA256(key, body)), no prefix. -/
def giteaExpected (secretKey body : List Nat) : List Nat :=
  hexBytes (hmacSha256 secretKey body)

theorem length_bytesBE (n v : Nat) : (bytesBE n v).length = n := by
  induction n generalizing v with
  | zero => rfl
  | succ n ih => simp [bytesBE, ih]

theorem sha1_length (m : List Nat) : (sha1 m).length = 20 := by
  simp only [sha1]
  rcases sha1Blocks (chunks64 ((mdPad m).length + 1) (mdPad m))
      (1732584193, 4023233417, 2562383102, 271733878, 3285377520) with
    ⟨a, b, c, d, e⟩
  simp [length_bytesBE]

theorem sha256_length (m : List Nat) : (sha256 m).length = 32 := by
  simp only [sha256]
  rcases sha256Blocks (chunks64 ((mdPad m).length + 1) (mdPad m))
      (1779033703, 3144134277, 1013904242, 2773480762,
       1359893119, 2600822924, 528734635, 1541459225) with
    ⟨a, b, c, d, e, f, g, hh⟩
  simp [length_bytesBE]

theorem hmacSha1_length (key msg : List Nat) : (hmacSha1 key msg).length = 20 := by
  simp only [hmacSha1, hmac]
  exact sha1_length _

theorem hmacSha256_length (key msg : List Nat) : (hmacSha256 key msg).length = 32 := by
  simp only [hmacSha256, hmac]
  exact sha256_length _

theorem length_hexBytes (l : List Nat) : (hexBytes l).length = 2 * l.length := by
  induction l with
  | nil => rfl
  | cons b bs ih => simp [hexBytes, ih]; omega

theorem hexDigit_ge (n : Nat) : 48 ≤ hexDigit n := by
  unfold hexDigit; split <;> omega

theorem mem_hexBytes_ge (l : List Nat) : ∀ b ∈ hexBytes l, 48 ≤ b := by
  induction l with
  | nil => intro b hb; cases hb
  | cons x xs ih =>
      intro b hb
      rcases hb with _ | ⟨_, hb⟩
      · exact hexDigit_ge _
      · rcases hb with _ | ⟨_, hb⟩
        · exact hexDigit_ge _
        · exact ih b hb

theorem isSpace_eq_false {b : Nat} (h : 48 ≤ b) : isSpace b = false := by
  simp only [isSpace, Bool.or_eq_false_iff, beq_eq_false_iff_ne, ne_eq]
  omega

theorem githubExpected_length (K B : List Nat) : (githubExpected K B).length = 45 := by
  have h5 : (strBytes "sha1=").length = 5 := rfl
  simp [githubExpected, length_hexBytes, hmacSha1_length, h5]

theorem giteaExpected_length (K B : List Nat) : (giteaExpected K B).length = 64 := by
  simp [giteaExpected, length_hexBytes, hmacSha256_length]

theorem githubExpected_all_ge (K B : List Nat) : ∀ b ∈ githubExpected K B, 48 ≤ b := by
  intro b hb
  rcases List.mem_append.mp hb with h | h
  · have hpre : ∀ x ∈ strBytes "sha1=", 48 ≤ x := by decide
    exact hpre b h
  · exact mem_hexBytes_ge _ b h

theorem giteaExpected_all_ge (K B : List Nat) : ∀ b ∈ giteaExpected K B, 48 ≤ b := by
  intro b hb
  exact mem_hexBytes_ge _ b hb

theorem dropWhile_eq_self_of_all (p : Nat → Bool) (l : List Nat)
    (h : ∀ b ∈ l, p b = false) : l.dropWhile p = l := by
  cases l with
  | nil => rfl
  | cons a t =>
      have ha := h a (List.mem_cons_self a t)
      simp [List.dropWhile_cons, ha]

theorem trimSpace_eq_self (l : List Nat) (h : ∀ b ∈ l, isSpace b = false) :
    trimSpace l = l := by
  unfold trimSpace
  rw [dropWhile_eq_self_of_all isSpace l h,
      dropWhile_eq_self_of_all isSpace l.reverse
        (fun b hb => h b (List.mem_reverse.mp hb)),
      List.reverse_reverse]

theorem dropWhile_length_le (p : Nat → Bool) (l : List Nat) :
    (l.dropWhile p).length ≤ l.length := by
  induction l with
  | nil => simp
  | cons a t ih =>
      rw [List.dropWhile_cons]
      split
      · exact Nat.le_trans ih (Nat.le_succ _)
      · exact Nat.le_refl _

theorem dropWhile_eq_self_of_length (p : Nat → Bool) (l : List Nat)
    (h : (l.dropWhile p).length = l.length) : l.dropWhile p = l := by
  cases l with
  | nil => rfl
  | cons a t =>
      by_cases hp : p a
      · rw [List.dropWhile_cons_of_pos hp] at h
        have := dropWhile_length_le p t
        simp at h
        omega
      · exact List.dropWhile_cons_of_neg hp

theorem trimSpace_length_le (l : List Nat) : (trimSpace l).length ≤ l.length := by
  unfold trimSpace
  calc ((l.dropWhile isSpace).reverse.dropWhile isSpace).reverse.length
      = ((l.dropWhile isSpace).reverse.dropWhile isSpace).length := List.length_reverse _
    _ ≤ (l.dropWhile isSpace).reverse.length := dropWhile_length_le _ _
    _ = (l.dropWhile isSpace).length := List.length_reverse _
    _ ≤ l.length := dropWhile_length_le _ _

theorem trimSpace_eq_self_of_length (l : List Nat)
    (h : (trimSpace l).length = l.length) : trimSpace l = l := by
  have h1 : (l.dropWhile isSpace).length ≤ l.length := dropWhile_length_le _ _
  have h2 : ((l.dropWhile isSpace).reverse.dropWhile isSpace).length ≤
      (l.dropWhile isSpace).length := by
    have := dropWhile_length_le isSpace (l.dropWhile isSpace).reverse
    simpa using this
  have h3 : (trimSpace l).length =
      ((l.dropWhile isSpace).reverse.dropWhile isSpace).length := by
    unfold trimSpace
    exact List.length_reverse _
  have e1 : (l.dropWhile isSpace).length = l.length := by omega
  have e2 : ((l.dropWhile isSpace).reverse.dropWhile isSpace).length =
      (l.dropWhile isSpace).reverse.length := by simp; omega
  have d1 : l.dropWhile isSpace = l := dropWhile_eq_self_of_length _ _ e1
  have d2 : (l.dropWhile isSpace).reverse.dropWhile isSpace =
      (l.dropWhile isSpace).reverse := dropWhile_eq_self_of_length _ _ e2
  unfold trimSpace
  rw [d2, List.reverse_reverse, d1]

theorem checkGitHubSignature_eq_none_iff (K hd B : List Nat) :
    checkGitHubSignature K hd B = none ↔ trimSpace hd = githubExpected K B := by
  have hlen := githubExpected_length K B
  simp only [checkGitHubSignature, hmacEqual]
  by_cases h1 : trimSpace hd = []
  · rw [if_pos h1]
    apply iff_of_false (by simp)
    intro he
    rw [h1] at he
    have := congrArg List.length he
    simp [hlen] at this
  · rw [if_neg h1]
    by_cases h2 : (trimSpace hd).length = 45
    · rw [if_neg (by simp [h2])]
      by_cases heq : trimSpace hd = strBytes "sha1=" ++ hexBytes (hmacSha1 K B)
      · rw [if_pos (by simp [heq])]
        simpa [githubExpected] using heq
      · rw [if_neg (by simpa using heq)]
        apply iff_of_false (by simp)
        simpa [githubExpected] using heq
    · rw [if_pos (by simpa using h2)]
      apply iff_of_false (by simp)
      intro he
      rw [he, hlen] at h2
      exact h2 rfl

theorem checkGiteaSignature_eq_none_iff (K hd B : List Nat) :
    checkGiteaSignature K hd B = none ↔ trimSpace hd = giteaExpected K B := by
  have hlen := giteaExpected_length K B
  simp only [checkGiteaSignature, hmacEqual]
  by_cases h1 : trimSpace hd = []
  · rw [if_pos h1]
    apply iff_of_false (by simp)
    intro he
    rw [h1] at he
    have := congrArg List.length he
    simp [hlen] at this
  · rw [if_neg h1]
    by_cases h2 : (trimSpace hd).length = 64
    · rw [if_neg (by simp [h2])]
      by_cases heq : trimSpace hd = hexBytes (hmacSha256 K B)
      · rw [if_pos (by simp [heq])]
        simpa [giteaExpected] using heq
      · rw [if_neg (by simpa using heq)]
        apply iff_of_false (by simp)
        simpa [giteaExpected] using heq
    · rw [if_pos (by simpa using h2)]
      apply iff_of_false (by simp)
      intro he
      rw [he, hlen] at h2
      exact h2 rfl

/-- Test fixture from the repository test suite: the shared secret key. -/
def testKey : List Nat := strBytes "verysecret"

/-- Test fixture from the repository test suite: the request body. -/
def testBody : List Nat := strBytes "\x7b\"hook_id\":42\x7d"

/-- C2: for every secret key K and body B, the GitHub-style verifier accepts
the header "sha1=" ++ hex(HMAC-SHA1(K, B)) over body B, and any header that
differs from this correct value in a single bit fails verification. -/
theorem claim_C2_github_accepts_and_bitflip_fails (K B : List Nat) (i k : Nat)
    (hi : i < 45) (hk : k < 8) :
    checkGitHubSignature K (githubExpected K B) B = none ∧
    checkGitHubSignature K (bitflip (githubExpected K B) i k) B ≠ none := by
  have hlen := githubExpected_length K B
  have hall := githubExpected_all_ge K B
  refine ⟨?_, ?_⟩
  · rw [checkGitHubSignature_eq_none_iff]
    exact trimSpace_eq_self _ (fun b hb => isSpace_eq_false (hall b hb))
  · intro hnone
    rw [checkGitHubSignature_eq_none_iff] at hnone
    have hfl : (bitflip (githubExpected K B) i k).length = 45 := by
      simp [bitflip, hlen]
    have h2 : (trimSpace (bitflip (githubExpected K B) i k)).length =
        (bitflip (githubExpected K B) i k).length := by
      rw [hnone, hlen, hfl]
    have h3 := trimSpace_eq_self_of_length _ h2
    have h4 : bitflip (githubExpected K B) i k = githubExpected K B :=
      h3.symm.trans hnone
    have hi2 : i < (githubExpected K B).length := by omega
    have h5 := congrArg (fun l => l[i]?) h4
    simp only [bitflip] at h5
    rw [List.getElem?_set_self hi2, List.getElem?_eq_getElem hi2,
        List.getD_eq_getElem _ _ hi2] at h5
    have h6 : (githubExpected K B)[i] ^^^ (1 <<< k) = (githubExpected K B)[i] :=
      Option.some.inj h5
    have h7 : (1 <<< k) = 0 := by
      calc 1 <<< k
          = (githubExpected K B)[i] ^^^ ((githubExpected K B)[i] ^^^ (1 <<< k)) :=
            (Nat.xor_cancel_left _ _).symm
        _ = (githubExpected K B)[i] ^^^ (githubExpected K B)[i] := by rw [h6]
        _ = 0 := Nat.xor_self _
    rw [Nat.one_shiftLeft] at h7
    have := Nat.two_pow_pos k
    omega

theorem claim_C2_witness :
    checkGitHubSignature testKey (githubExpected testKey testBody) testBody = none ∧
    checkGitHubSignature testKey (bitflip (githubExpected testKey testBody) 7 3)
      testBody ≠ none :=
  claim_C2_github_accepts_and_bitflip_fails testKey testBody 7 3
    (by decide) (by decide)

/-- C3: for every secret key K and body B, the Gitea-style verifier accepts
the bare header hex(HMAC-SHA256(K, B)) over body B, and any header that
differs from this correct value in a single bit fails verification. -/
theorem claim_C3_gitea_accepts_and_bitflip_fails (K B : List Nat) (i k : Nat)
    (hi : i < 64) (hk : k < 8) :
    checkGiteaSignature K (giteaExpected K B) B = none ∧
    checkGiteaSignature K (bitflip (giteaExpected K B) i k) B ≠ none := by
  have hlen := giteaExpected_length K B
  have hall := giteaExpected_all_ge K B
  refine ⟨?_, ?_⟩
  · rw [checkGiteaSignature_eq_none_iff]
    exact trimSpace_eq_self _ (fun b hb => isSpace_eq_false (hall b hb))
  · intro hnone
    rw [checkGiteaSignature_eq_none_iff] at hnone
    have hfl : (bitflip (giteaExpected K B) i k).length = 64 := by
      simp [bitflip, hlen]
    have h2 : (trimSpace (bitflip (giteaExpected K B) i k)).length =
        (bitflip (giteaExpected K B) i k).length := by
      rw [hnone, hlen, hfl]
    have h3 := trimSpace_eq_self_of_length _ h2
    have h4 : bitflip (giteaExpected K B) i k = giteaExpected K B :=
      h3.symm.trans hnone
    have hi2 : i < (giteaExpected K B).length := by omega
    have h5 := congrArg (fun l => l[i]?) h4
    simp only [bitflip] at h5
    rw [List.getElem?_set_self hi2, List.getElem?_eq_getElem hi2,
        List.getD_eq_getElem _ _ hi2] at h5
    have h6 : (giteaExpected K B)[i] ^^^ (1 <<< k) = (giteaExpected K B)[i] :=
      Option.some.inj h5
    have h7 : (1 <<< k) = 0 := by
      calc 1 <<< k
          = (giteaExpected K B)[i] ^^^ ((giteaExpected K B)[i] ^^^ (1 <<< k)) :=
            (Nat.xor_cancel_left _ _).symm
        _ = (giteaExpected K B)[i] ^^^ (giteaExpected K B)[i] := by rw [h6]
        _ = 0 := Nat.xor_self _
    rw [Nat.one_shiftLeft] at h7
    have := Nat.two_pow_pos k
    omega

theorem claim_C3_witness :
    checkGiteaSignature testKey (giteaExpected testKey testBody) testBody = none ∧
    checkGiteaSignature testKey (bitflip (giteaExpected testKey testBody) 12 0)
      testBody ≠ none :=
  claim_C3_gitea_accepts_and_bitflip_fails testKey testBody 12 0
    (by decide) (by decide)

/-- The handler used by the repository test suite: the test secret key; the
configured decoder is modelled as absent so MinimalEventDecoder applies. -/
def testHandler : Handler := { secretKey := testKey, eventDecoder := none }

/-- Test-suite case 5: a GET request carrying a valid GitHub-style signature. -/
def getRequest : Request :=
  { method := "GET"
    xHubSignature := strBytes "sha1=71652c35709ccaec5fb1de93c576d27ab4325273"
    xGiteaSignature := []
    xGitHubEvent := "ping"
    xGitHubDelivery := "fifth"
    body := testBody
    readError := none }

/-- A POST request with both signature headers absent. -/
def missingSigRequest : Request :=
  { method := "POST"
    xHubSignature := []
    xGiteaSignature := []
    xGitHubEvent := "ping"
    xGitHubDelivery := "nosig"
    body := testBody
    readError := none }

/-- Test-suite case 3a: a POST request with a malformed GitHub-style header. -/
def badSigRequest : Request :=
  { method := "POST"
    xHubSignature := strBytes "sha1=42"
    xGiteaSignature := []
    xGitHubEvent := "ping"
    xGitHubDelivery := "third"
    body := testBody
    readError := none }

/-- C6: a request whose method is not POST is answered 405 with body "method
not allowed" and no callback invocation, whatever the body, the read outcome,
or the signature headers hold. -/
theorem claim_C6_non_post_rejected (h : Handler) (r : Request)
    (hm : r.method ≠ "POST") :
    serveHTTP h r = (⟨405, "method not allowed"⟩, []) := by
  simp only [serveHTTP]
  rw [if_pos hm]

theorem claim_C6_witness :
    serveHTTP testHandler getRequest = (⟨405, "method not allowed"⟩, []) :=
  claim_C6_non_post_rejected testHandler getRequest (by decide)

/-- C7: a header whose trimmed form is non-empty but does not have the scheme
length (45 GitHub-style, 64 Gitea-style) is rejected as invalidSignature,
with an outcome independent of the secret key and of the body. -/
theorem claim_C7_wrong_length_invalid (K B K2 B2 hv : List Nat)
    (hne : trimSpace hv ≠ []) :
    ((trimSpace hv).length ≠ 45 →
      checkGitHubSignature K hv B = some .invalidSignature ∧
      checkGitHubSignature K hv B = checkGitHubSignature K2 hv B2) ∧
    ((trimSpace hv).length ≠ 64 →
      checkGiteaSignature K hv B = some .invalidSignature ∧
      checkGiteaSignature K hv B = checkGiteaSignature K2 hv B2) := by
  constructor
  · intro hl
    have hx : ∀ K3 B3 : List Nat,
        checkGitHubSignature K3 hv B3 = some .invalidSignature := by
      intro K3 B3
      simp only [checkGitHubSignature]
      rw [if_neg hne, if_pos hl]
    exact ⟨hx K B, (hx K B).trans (hx K2 B2).symm⟩
  · intro hl
    have hx : ∀ K3 B3 : List Nat,
        checkGiteaSignature K3 hv B3 = some .invalidSignature := by
      intro K3 B3
      simp only [checkGiteaSignature]
      rw [if_neg hne, if_pos hl]
    exact ⟨hx K B, (hx K B).trans (hx K2 B2).symm⟩

theorem claim_C7_witness :
    checkGitHubSignature testKey (strBytes "sha1=42") testBody =
      some .invalidSignature ∧
    checkGiteaSignature testKey (strBytes "sha1=42") testBody =
      some .invalidSignature :=
  ⟨((claim_C7_wrong_length_invalid testKey testBody (strBytes "otherkey")
      (strBytes "otherbody") (strBytes "sha1=42") (by decide)).1 (by decide)).1,
   ((claim_C7_wrong_length_invalid testKey testBody (strBytes "otherkey")
      (strBytes "otherbody") (strBytes "sha1=42") (by decide)).2 (by decide)).1⟩

theorem serveHTTP_post_readOk (h : Handler) (r : Request)
    (hm : r.method = "POST") (hr : r.readError = none) :
    serveHTTP h r =
      match signatureCheck h r (bodyBytes r) with
      | some e => (⟨401, e.message⟩, [])
      | none =>
        match effectiveDecoder h r.xGitHubEvent (bodyBytes r) with
        | (_, some msg) => (⟨400, msg⟩, [])
        | (none, none) => (⟨501, "event type not supported"⟩, [])
        | (some event, none) => (⟨204, ""⟩, [(r.xGitHubDelivery, event)]) := by
  simp only [serveHTTP]
  rw [if_neg (by simp [hm]), hr]

/-- C4: the GitHub-style header is checked first and the Gitea-style header
only when that fails with noSignature; both headers absent gives 401 with the
missing-header text; an invalid signature under either scheme gives 401 with
the invalid-header text. -/
theorem claim_C4_dispatch_policy (h : Handler) (r : Request) :
    (checkGitHubSignature h.secretKey r.xHubSignature (bodyBytes r) =
        some .noSignature →
      signatureCheck h r (bodyBytes r) =
        checkGiteaSignature h.secretKey r.xGiteaSignature (bodyBytes r)) ∧
    (checkGitHubSignature h.secretKey r.xHubSignature (bodyBytes r) ≠
        some .noSignature →
      signatureCheck h r (bodyBytes r) =
        checkGitHubSignature h.secretKey r.xHubSignature (bodyBytes r)) ∧
    (r.method = "POST" → r.readError = none → r.xHubSignature = [] →
      r.xGiteaSignature = [] →
      serveHTTP h r =
        (⟨401, "missing signature header (X-Hub-Signature or X-Gitea-Signature)"⟩,
         [])) ∧
    (r.method = "POST" → r.readError = none →
      signatureCheck h r (bodyBytes r) = some .invalidSignature →
      serveHTTP h r = (⟨401, "invalid signature header"⟩, [])) := by
  refine ⟨?_, ?_, ?_, ?_⟩
  · intro hres
    simp only [signatureCheck]
    rw [hres]
  · intro hne
    cases hres : checkGitHubSignature h.secretKey r.xHubSignature (bodyBytes r) with
    | none => simp only [signatureCheck]; rw [hres]
    | some e =>
        cases e with
        | noSignature => exact absurd hres hne
        | invalidSignature => simp only [signatureCheck]; rw [hres]
  · intro hm hr hh hg
    have hsig : signatureCheck h r (bodyBytes r) = some .noSignature := by
      simp [signatureCheck, checkGitHubSignature, checkGiteaSignature, hh, hg,
        trimSpace]
    rw [serveHTTP_post_readOk h r hm hr, hsig]
    simp [SigError.message]
  · intro hm hr hsig
    rw [serveHTTP_post_readOk h r hm hr, hsig]
    simp [SigError.message]

theorem claim_C4_witness :
    serveHTTP testHandler missingSigRequest =
      (⟨401, "missing signature header (X-Hub-Signature or X-Gitea-Signature)"⟩,
       []) ∧
    serveHTTP testHandler badSigRequest =
      (⟨401, "invalid signature header"⟩, []) :=
  ⟨(claim_C4_dispatch_policy testHandler missingSigRequest).2.2.1 rfl rfl rfl rfl,
   (claim_C4_dispatch_policy testHandler badSigRequest).2.2.2 rfl rfl (by decide)⟩

/-- C5: once the signature check has passed, a decoder error yields 400 with
the decoder text and an absent event yields 501 with "event type not
supported", neither invoking the callback; without a configured decoder the
built-in MinimalEventDecoder applies, which recognizes only "ping". -/
theorem claim_C5_decode_stage (h : Handler) (r : Request)
    (hm : r.method = "POST") (hr : r.readError = none)
    (hs : signatureCheck h r (bodyBytes r) = none) :
    (∀ ev msg, effectiveDecoder h r.xGitHubEvent (bodyBytes r) = (ev, some msg) →
      serveHTTP h r = (⟨400, msg⟩, [])) ∧
    (effectiveDecoder h r.xGitHubEvent (bodyBytes r) = (none, none) →
      serveHTTP h r = (⟨501, "event type not supported"⟩, [])) ∧
    (h.eventDecoder = none → effectiveDecoder h = MinimalEventDecoder) ∧
    (∀ tag payload, tag ≠ "ping" → MinimalEventDecoder tag payload = (none, none)) ∧
    (∀ payload, MinimalEventDecoder "ping" payload = (some .minimalPing, none)) := by
  refine ⟨?_, ?_, ?_, ?_, ?_⟩
  · intro ev msg hd
    cases ev with
    | none => rw [serveHTTP_post_readOk h r hm hr, hs, hd]
    | some e => rw [serveHTTP_post_readOk h r hm hr, hs, hd]
  · intro hd
    rw [serveHTTP_post_readOk h r hm hr, hs, hd]
  · intro h0
    simp only [effectiveDecoder, h0]
  · intro tag payload ht
    simp [MinimalEventDecoder, ht]
  · intro payload
    simp [MinimalEventDecoder]

/-- C1: the callback is invoked iff the method is POST, the body read
succeeds, the signature check passes, and the decoder returns a non-absent
event with no error; in that case it is invoked exactly once with the
X-GitHub-Delivery header value and the decoded event, and the response is
204 with an empty body. -/
theorem claim_C1_callback_iff (h : Handler) (r : Request) :
    ((serveHTTP h r).2 ≠ [] ↔
      r.method = "POST" ∧ r.readError = none ∧
      signatureCheck h r (bodyBytes r) = none ∧
      ∃ ev, effectiveDecoder h r.xGitHubEvent (bodyBytes r) = (some ev, none)) ∧
    (∀ ev, r.method = "POST" → r.readError = none →
      signatureCheck h r (bodyBytes r) = none →
      effectiveDecoder h r.xGitHubEvent (bodyBytes r) = (some ev, none) →
      serveHTTP h r = (⟨204, ""⟩, [(r.xGitHubDelivery, ev)])) := by
  constructor
  · by_cases hm : r.method = "POST"
    · cases hre : r.readError with
      | some msg =>
          have hserve : serveHTTP h r = (⟨500, msg⟩, []) := by
            simp only [serveHTTP]
            rw [if_neg (by simp [hm]), hre]
          rw [hserve]
          simp [hre]
      | none =>
          cases hsig : signatureCheck h r (bodyBytes r) with
          | some e =>
              rw [serveHTTP_post_readOk h r hm hre, hsig]
              simp [hsig]
          | none =>
              rcases hdec : effectiveDecoder h r.xGitHubEvent (bodyBytes r) with
                ⟨oe, oerr⟩
              cases oerr with
              | some msg =>
                  cases oe with
                  | none =>
                      rw [serveHTTP_post_readOk h r hm hre, hsig, hdec]
                      simp [hm, hre, hsig, hdec]
                  | some e =>
                      rw [serveHTTP_post_readOk h r hm hre, hsig, hdec]
                      simp [hm, hre, hsig, hdec]
              | none =>
                  cases oe with
                  | none =>
                      rw [serveHTTP_post_readOk h r hm hre, hsig, hdec]
                      simp [hm, hre, hsig, hdec]
                  | some ev =>
                      rw [serveHTTP_post_readOk h r hm hre, hsig, hdec]
                      simp [hm, hre, hsig, hdec]
    · have hserve : serveHTTP h r = (⟨405, "method not allowed"⟩, []) := by
        simp only [serveHTTP]
        rw [if_pos hm]
      rw [hserve]
      simp [hm]
  · intro ev hm hre hsig hdec
    rw [serveHTTP_post_readOk h r hm hre, hsig, hdec]

/-- Test-suite case 1a: a valid POST ping request with GitHub-style signature. -/
def pingRequest : Request :=
  { method := "POST"
    xHubSignature := strBytes "sha1=71652c35709ccaec5fb1de93c576d27ab4325273"
    xGiteaSignature := []
    xGitHubEvent := "ping"
    xGitHubDelivery := "first"
    body := testBody
    readError := none }

/-- Test-suite case 6: a validly signed POST request with an unknown event type. -/
def unknownEventRequest : Request :=
  { method := "POST"
    xHubSignature := strBytes "sha1=71652c35709ccaec5fb1de93c576d27ab4325273"
    xGiteaSignature := []
    xGitHubEvent := "test"
    xGitHubDelivery := "sixth"
    body := testBody
    readError := none }

/-- A POST request whose body stream fails mid-read. -/
def failingReadRequest : Request :=
  { method := "POST"
    xHubSignature := []
    xGiteaSignature := []
    xGitHubEvent := "ping"
    xGitHubDelivery := "ioerr"
    body := testBody
    readError := some "unexpected EOF" }

/-- A body one byte longer than the 25 MiB cap. -/
def oversizedBody : List Nat := List.replicate (maxBodySize + 1) 48

/-- A POST request with an oversized body, a clean stream, and no signature
headers. -/
def oversizedRequest : Request :=
  { method := "POST"
    xHubSignature := []
    xGiteaSignature := []
    xGitHubEvent := "ping"
    xGitHubDelivery := "big"
    body := oversizedBody
    readError := none }

theorem claim_C1_witness :
    serveHTTP testHandler pingRequest =
      (⟨204, ""⟩, [("first", Event.minimalPing)]) :=
  (claim_C1_callback_iff testHandler pingRequest).2 Event.minimalPing rfl rfl
    (by decide) (by decide)

theorem claim_C5_witness :
    serveHTTP testHandler unknownEventRequest =
      (⟨501, "event type not supported"⟩, []) :=
  (claim_C5_decode_stage testHandler unknownEventRequest rfl rfl (by decide)).2.1
    (by decide)

theorem serve_read_error (h : Handler) (r : Request) (hm : r.method = "POST")
    (msg : String) (hr : r.readError = some msg) :
    serveHTTP h r = (⟨500, msg⟩, []) := by
  simp only [serveHTTP]
  rw [if_neg (by simp [hm]), hr]

theorem serve_status_ne_500 (h : Handler) (r : Request) (hm : r.method = "POST")
    (hr : r.readError = none) : (serveHTTP h r).1.status ≠ 500 := by
  rw [serveHTTP_post_readOk h r hm hr]
  cases hsig : signatureCheck h r (bodyBytes r) with
  | some e => simp
  | none =>
      rcases hdec : effectiveDecoder h r.xGitHubEvent (bodyBytes r) with ⟨oe, oerr⟩
      cases oerr with
      | some m => cases oe <;> simp
      | none => cases oe <;> simp

theorem serve_truncate (h : Handler) (r : Request) (hm : r.method = "POST")
    (hr : r.readError = none) :
    serveHTTP h r = serveHTTP h { r with body := r.body.take maxBodySize } := by
  have hb : bodyBytes { r with body := r.body.take maxBodySize } = bodyBytes r := by
    simp [bodyBytes, List.take_take]
  rw [serveHTTP_post_readOk h r hm hr,
      serveHTTP_post_readOk h { r with body := r.body.take maxBodySize } hm hr, hb]
  rfl

/-- C9: for a POST request whose stream reads without error, the handler
silently processes the first 25 MiB of the body: the outcome equals that of a
request whose whole body is that prefix, and body size alone never yields a
500 response. -/
theorem claim_C9_truncated_body_processed (h : Handler) (r : Request)
    (hm : r.method = "POST") (hr : r.readError = none) :
    serveHTTP h r = serveHTTP h { r with body := r.body.take maxBodySize } ∧
    (serveHTTP h r).1.status ≠ 500 :=
  ⟨serve_truncate h r hm hr, serve_status_ne_500 h r hm hr⟩

theorem claim_C9_witness :
    serveHTTP testHandler oversizedRequest =
      serveHTTP testHandler
        { oversizedRequest with body := oversizedRequest.body.take maxBodySize } ∧
    (serveHTTP testHandler oversizedRequest).1.status ≠ 500 :=
  claim_C9_truncated_body_processed testHandler oversizedRequest rfl rfl

/-- C8 as stated is false: an oversized body with a clean stream is not
answered 500; this POST request with a 25 MiB + 1 byte body reaches the
signature stage and is answered 401. -/
theorem claim_C8_counterexample :
    maxBodySize < oversizedBody.length ∧
    (serveHTTP testHandler oversizedRequest).1.status = 401 ∧
    (serveHTTP testHandler oversizedRequest).1.status ≠ 500 := by
  have hs : (serveHTTP testHandler oversizedRequest).1.status = 401 := rfl
  refine ⟨by simp [oversizedBody], hs, by rw [hs]; decide⟩

/-- C8 amended: a 500 response with the underlying error text arises exactly
from a failing body read; an oversized body with a clean stream is truncated
to 25 MiB and processing continues, never yielding 500. -/
theorem claim_C8_amended_read_error_only (h : Handler) (r : Request)
    (hm : r.method = "POST") :
    (∀ msg, r.readError = some msg → serveHTTP h r = (⟨500, msg⟩, [])) ∧
    (r.readError = none → (serveHTTP h r).1.status ≠ 500 ∧
      serveHTTP h r = serveHTTP h { r with body := r.body.take maxBodySize }) :=
  ⟨fun msg hr => serve_read_error h r hm msg hr,
   fun hr => ⟨serve_status_ne_500 h r hm hr, serve_truncate h r hm hr⟩⟩

theorem claim_C8_witness :
    serveHTTP testHandler failingReadRequest =
      (⟨500, "unexpected EOF"⟩, []) ∧
    (serveHTTP testHandler missingSigRequest).1.status ≠ 500 :=
  ⟨(claim_C8_amended_read_error_only testHandler failingReadRequest rfl).1
      "unexpected EOF" rfl,
   ((claim_C8_amended_read_error_only testHandler missingSigRequest rfl).2 rfl).1⟩

end Shove
